import Mathlib

/-!
Verification development for the WhatsApp receipts-ingestion gateway
(src/bot/index.js of the comprobantesvm repository).

The gateway is embedded shallowly:
* the message handler registered on the message_create event becomes the
  pure function messageCreate, taking the outcome of the fallible
  downloadMedia call and of the fallible reply call as explicit arguments
  (an Except models a JS promise rejection / thrown exception);
* the per-item body of procesarCola (the axios.post call, the response
  branch and the catch branch) becomes procesarItem, taking the outcome of
  the HTTP call as an explicit argument;
* the queue-and-flag machinery of procesarCola (the global array
  colaComprobantes, the boolean procesando, the while loop and the
  2-second inter-item delay) becomes a small step machine runQueue driven
  by a schedule interleaving enqueue events with internal steps;
* the disconnected handlers become onDisconnected.

JS-specific value semantics are modelled explicitly: the short-circuit
defaulting operator a || b treats the empty string and the number 0 as
falsy (jsOr, jsOrNum), and String.prototype.trim drops whitespace from
both ends (jsTrim).
-/

deriving instance DecidableEq for Except

/-- The downloaded attachment payload returned by msg.downloadMedia():
base64 data, MIME type, optional filename (src/bot/index.js line 225,
and the media fields used at lines 47, 55, 57, 240-247). -/
structure Media where
  data : String
  mimetype : String
  filename : Option String
deriving DecidableEq

/-- An inbound message event as delivered by the messaging library:
the sender address msg.from (renamed from_, from is a Lean keyword),
the fromMe flag, the hasMedia flag and the optional text body
(src/bot/index.js lines 196-220). -/
structure Msg where
  from_ : String
  fromMe : Bool
  hasMedia : Bool
  body : Option String
deriving DecidableEq

/-- A queued unit of work: the pair pushed on colaComprobantes at
src/bot/index.js line 244. -/
structure QueueItem where
  media : Media
  msg : Msg
deriving DecidableEq

/-- JS defaulting a || b for an optional string: null/undefined and the
empty string are falsy. -/
def jsOr (o : Option String) (dflt : String) : String :=
  match o with
  | some s => if s = "" then dflt else s
  | none => dflt

/-- JS defaulting n || d where n is an optional number rendered into a
string: null/undefined and 0 are falsy. -/
def jsOrNum (o : Option Int) (dflt : String) : String :=
  match o with
  | some n => if n = 0 then dflt else toString n
  | none => dflt

/-- JS String.prototype.trim: drop whitespace from both ends
(src/bot/index.js line 210: (msg.body || '').trim()). -/
def jsTrim (s : String) : String :=
  String.mk (List.reverse (List.dropWhile Char.isWhitespace
    (List.reverse (List.dropWhile Char.isWhitespace s.data))))

/-- JS String.prototype.endsWith (src/bot/index.js line 206:
msg.from.endsWith of the group marker). -/
def jsEndsWith (s sfx : String) : Bool :=
  List.isSuffixOf sfx.data s.data

/-- JS String.prototype.substring(0, n) (src/bot/index.js line 212). -/
def jsSubstring (s : String) (n : Nat) : String :=
  String.mk (s.data.take n)

/-- The MIME allow-list tiposValidos (src/bot/index.js lines 233-238). -/
def tiposValidos : List String :=
  ["application/pdf", "image/jpeg", "image/png", "image/jpg"]

/-- The informational reply of the text-only branch
(src/bot/index.js line 214). -/
def receiptsOnlyText : String :=
  "Este número solo recibe comprobantes (imagen JPG/PNG o PDF)."

/-- The debug line printed for every message_create event
(src/bot/index.js line 197). -/
def dbgLine (msg : Msg) : String :=
  "📨 [DEBUG] Mensaje detectado de " ++ msg.from_ ++ " - hasMedia: "
    ++ (if msg.hasMedia then "true" else "false")

/-- The log line printed before downloading media
(src/bot/index.js line 224). -/
def descargandoLine (msg : Msg) : String :=
  "📎 Descargando media de " ++ msg.from_ ++ "..."

/-- The log line printed for an accepted attachment
(src/bot/index.js line 241). -/
def recibidoLine (media : Media) (msg : Msg) : String :=
  "📥 Recibido: " ++ jsOr media.filename "archivo" ++ " (" ++ media.mimetype
    ++ ") de " ++ msg.from_

/-- What one run of the message_create handler did: console output, reply
texts attempted via msg.reply, the item pushed on the queue (if any), and
whether msg.downloadMedia() was invoked. -/
structure HandlerResult where
  logs : List String
  replies : List String
  enqueued : Option QueueItem
  downloaded : Bool
deriving DecidableEq

/-- The message_create handler (src/bot/index.js lines 196-253).
download is the outcome of the msg.downloadMedia() call (ok none models a
null result, error models a rejection caught at line 250); replyResult is
the outcome of the msg.reply call of the text-only branch (its rejection
is caught at line 215).  The handler itself never throws, hence the
result is always Except.ok. -/
def messageCreate (msg : Msg) (download : Except String (Option Media))
    (replyResult : Except String Unit) : Except String HandlerResult :=
  let dbg := dbgLine msg
  if msg.fromMe = true then .ok ⟨[dbg], [], none, false⟩
  else if msg.from_ = "status@broadcast" then .ok ⟨[dbg], [], none, false⟩
  else if jsEndsWith msg.from_ "@g.us" = true then .ok ⟨[dbg], [], none, false⟩
  else if msg.hasMedia = false then
    let texto := jsTrim (jsOr msg.body "")
    if texto.length > 0 then
      let tlog := "💬 Texto recibido de " ++ msg.from_ ++ ": \""
        ++ jsSubstring texto 50 ++ "...\""
      match replyResult with
      | .ok _ => .ok ⟨[dbg, tlog], [receiptsOnlyText], none, false⟩
      | .error e =>
          .ok ⟨[dbg, tlog, "❌ Error al responder: " ++ e],
            [receiptsOnlyText], none, false⟩
    else .ok ⟨[dbg], [], none, false⟩
  else
    match download with
    | .error e =>
        .ok ⟨[dbg, descargandoLine msg, "❌ Error al procesar mensaje: " ++ e],
          [], none, true⟩
    | .ok none =>
        .ok ⟨[dbg, descargandoLine msg, "⚠️ No se pudo descargar el archivo"],
          [], none, true⟩
    | .ok (some media) =>
        if media.mimetype ∈ tiposValidos then
          .ok ⟨[dbg, descargandoLine msg, recibidoLine media msg],
            [], some ⟨media, msg⟩, true⟩
        else
          .ok ⟨[dbg, descargandoLine msg,
            "⚠️ Tipo no soportado: " ++ media.mimetype], [], none, true⟩

/-- The structured fields of the extraction-service response
(response.data.data at src/bot/index.js lines 68-69); the monetary amount
is modelled as an integer, the issuer name as a string, both optional. -/
structure ApiData where
  monto_numerico : Option Int
  emisor_nombre : Option String
deriving DecidableEq

/-- The extraction-service JSON response (response.data at
src/bot/index.js lines 67-73): success flag, optional message, optional
data object. -/
structure ApiResponse where
  success : Bool
  message : Option String
  data : Option ApiData
deriving DecidableEq

/-- Outcome of the axios.post call of procesarCola: either a completed
HTTP response, or a thrown error carrying an optional error.code (the
string compared against ECONNREFUSED / ETIMEDOUT at src/bot/index.js
lines 77 and 80) and an error.message. -/
inductive ForwardOutcome where
  | ok (r : ApiResponse)
  | err (code : Option String) (emsg : String)
deriving DecidableEq

/-- The optional chain response.data.data?.monto_numerico. -/
def getMonto (r : ApiResponse) : Option Int :=
  r.data.bind fun d => d.monto_numerico

/-- The optional chain response.data.data?.emisor_nombre. -/
def getEmisor (r : ApiResponse) : Option String :=
  r.data.bind fun d => d.emisor_nombre

/-- The value logged for the amount: data?.monto_numerico || 'N/A'
(src/bot/index.js line 68); JS || makes 0 fall back to the default. -/
def montoShown (r : ApiResponse) : String :=
  jsOrNum (getMonto r) "N/A"

/-- The value logged for the issuer: data?.emisor_nombre || 'Desconocido'
(src/bot/index.js line 69); JS || makes "" fall back to the default. -/
def emisorShown (r : ApiResponse) : String :=
  jsOr (getEmisor r) "Desconocido"

/-- The reply text chosen in the catch branch of procesarCola
(src/bot/index.js lines 76-85): the default generic text, overridden for
error.code ECONNREFUSED and ETIMEDOUT. -/
def mensajeError (code : Option String) : String :=
  if code = some "ECONNREFUSED" then
    "❌ Error: El sistema principal no está respondiendo (API caída)."
  else if code = some "ETIMEDOUT" then
    "❌ Error: Tiempo de espera agotado al procesar."
  else
    "❌ Error al procesar comprobante."

/-- The console.error line of the catch branch. -/
def errorLogLine (code : Option String) (emsg : String) : String :=
  if code = some "ECONNREFUSED" then
    "❌ Error: No se puede conectar a la API Python. ¿Está corriendo?"
  else if code = some "ETIMEDOUT" then
    "❌ Error: Timeout al procesar. El servidor tardó demasiado."
  else
    "❌ Error al procesar: " ++ emsg

/-- The fixed HTTP timeout API_TIMEOUT = 120000 ms
(src/bot/index.js line 16). -/
def API_TIMEOUT : Nat := 120000

/-- Model of new Date().toISOString() (src/bot/index.js line 58): an
injective rendering of the millisecond clock; the concrete ISO-8601
digit layout is the JS library's and is abstracted away, only which
instant gets rendered matters here. -/
def toISOString (ms : Nat) : String :=
  "iso:" ++ toString ms

/-- The JSON body of the axios.post call (src/bot/index.js lines 54-60). -/
structure ProcessRequest where
  file_base64 : String
  sender_phone : String
  mime_type : String
  timestamp : String
  texto_completo : String
deriving DecidableEq

/-- Builds the axios.post body exactly as procesarCola does, nowMs being
the wall clock (in ms) at the moment the item is dequeued and forwarded. -/
def buildRequest (item : QueueItem) (nowMs : Nat) : ProcessRequest :=
  { file_base64 := item.media.data
    sender_phone := item.msg.from_
    mime_type := item.media.mimetype
    timestamp := toISOString nowMs
    texto_completo := jsOr item.msg.body "" }

/-- The log line printed before forwarding (src/bot/index.js lines 47-49:
media.filename || a Date.now()-based fallback name). -/
def procLine (item : QueueItem) (nowMs : Nat) : String :=
  "📄 Procesando: "
    ++ jsOr item.media.filename ("comprobante_" ++ toString nowMs)

/-- What one iteration of procesarCola did to one item: console output,
reply texts attempted via msg.reply, the HTTP request body sent, and the
timeout configured on that request. -/
structure ItemResult where
  logs : List String
  replyAttempts : List String
  request : ProcessRequest
  timeoutMs : Nat
deriving DecidableEq

/-- The per-item body of procesarCola (src/bot/index.js lines 46-90):
builds the request, then classifies outcome (the response branch at
lines 67-73, the catch branch at lines 75-87).  replyResult is the
outcome of the msg.reply call of the catch branch; its rejection is
swallowed by the empty catch at line 86, so procesarItem never throws. -/
def procesarItem (item : QueueItem) (nowMs : Nat) (outcome : ForwardOutcome)
    (replyResult : Except String Unit) : Except String ItemResult :=
  let req := buildRequest item nowMs
  let plog := procLine item nowMs
  match outcome with
  | .ok r =>
      if r.success = true then
        .ok ⟨[plog, "✅ Procesado: $" ++ montoShown r ++ " de " ++ emisorShown r],
          [], req, API_TIMEOUT⟩
      else
        .ok ⟨[plog, "⚠️  Procesado con advertencia: "
            ++ (match r.message with | some m => m | none => "undefined")],
          [], req, API_TIMEOUT⟩
  | .err code emsg =>
      let errorMsg := mensajeError code
      match replyResult with
      | .ok _ => .ok ⟨[plog, errorLogLine code emsg], [errorMsg], req, API_TIMEOUT⟩
      | .error _ => .ok ⟨[plog, errorLogLine code emsg], [errorMsg], req, API_TIMEOUT⟩

/-- Timed drain of an already-scheduled run of queue items, starting at
clock t (ms): procesarCola forwards the head at the current clock and
waits 2000 ms before the next item (src/bot/index.js lines 45-91); the
HTTP call itself is modelled as instantaneous, which is one possible
execution.  Each item carries, as ghost data, the clock at which it was
received; the code itself never reads it (the pair pushed at line 244
holds no timestamp).  Returns the forward clock and request body of each
item in order. -/
def drainTimed (t : Nat) : List (QueueItem × Nat) → List (Nat × ProcessRequest)
  | [] => []
  | (item, _) :: rest => (t, buildRequest item t) :: drainTimed (t + 2000) rest

/-- An action of the session supervisor observable at the process
boundary. -/
inductive SupAction where
  | log (s : String)
  | scheduleReinit (delayMs : Nat)
deriving DecidableEq

/-- The combined effect of the two disconnected handlers
(src/bot/index.js lines 167-169 and 256-262): both log, the second
schedules client.initialize() via setTimeout(, 5000), for any reason. -/
def onDisconnected (reason : String) : List SupAction :=
  [ .log ("🔌 Desconectado: " ++ reason),
    .log ("🔌 Desconectado: " ++ reason),
    .log "Intentando reconectar en 5 segundos...",
    .scheduleReinit 5000 ]

/-- The supervisor's reaction to a whole sequence of disconnected
events, in order. -/
def superviseDisconnects : List String → List SupAction
  | [] => []
  | r :: rs => onDisconnected r ++ superviseDisconnects rs

/-- Number of re-initialization schedules among a list of supervisor
actions. -/
def countReinits (as : List SupAction) : Nat :=
  as.countP fun a => match a with
    | .scheduleReinit _ => true
    | .log _ => false

/-- Control position of the procesarCola loop.  idle: procesando is
false, no loop running.  looping: at the while-condition check of
src/bot/index.js line 45 with procesando true.  forwarding i: awaiting
the axios.post for item i.  delaying: awaiting the 2000 ms setTimeout of
line 90. -/
inductive Phase where
  | idle
  | looping
  | forwarding (i : QueueItem)
  | delaying
deriving DecidableEq

/-- The global mutable state of the queue machinery: colaComprobantes,
the control position of the (single) procesarCola activation, and the
count of forwards begun so far (used only to index the outcome oracle). -/
structure QState where
  phase : Phase
  cola : List QueueItem
  nforw : Nat
deriving DecidableEq

/-- Observable events of a queue run. -/
inductive QEv where
  | begin (i : QueueItem)
  | finish (i : QueueItem) (r : ForwardOutcome)
  | delay (ms : Nat)
deriving DecidableEq

/-- colaComprobantes.push(item) followed by the procesarCola() call
(src/bot/index.js lines 244-245): the item is appended; if procesando is
false the loop starts (phase becomes looping), otherwise the call
returns at line 42 and the running loop is left untouched. -/
def enqueueStep (i : QueueItem) (s : QState) : QState :=
  match s.phase with
  | .idle => ⟨.looping, s.cola ++ [i], s.nforw⟩
  | ph => ⟨ph, s.cola ++ [i], s.nforw⟩

/-- One internal step of the procesarCola loop, o being the oracle giving
the outcome of the n-th axios.post.  From looping with a non-empty queue
the head is shifted and its forward begins (line 46); from forwarding the
call completes with the oracle's outcome; from delaying the 2000 ms wait
elapses (line 90); from looping with an empty queue the loop exits and
procesando is reset (line 93).  In the idle phase there is nothing to
step. -/
def internalStep (o : Nat → ForwardOutcome) (s : QState) : List QEv × QState :=
  match s.phase, s.cola with
  | .idle, q => ([], ⟨.idle, q, s.nforw⟩)
  | .looping, [] => ([], ⟨.idle, [], s.nforw⟩)
  | .looping, i :: rest => ([.begin i], ⟨.forwarding i, rest, s.nforw⟩)
  | .forwarding i, q => ([.finish i (o s.nforw)], ⟨.delaying, q, s.nforw + 1⟩)
  | .delaying, q => ([.delay 2000], ⟨.looping, q, s.nforw⟩)

/-- A schedule interleaves arrivals (some i: the message handler pushes
item i) with internal progress of the loop (none).  runQueue executes a
schedule from a state, collecting the emitted events. -/
def runQueue (o : Nat → ForwardOutcome) :
    List (Option QueueItem) → QState → List QEv × QState
  | [], s => ([], s)
  | some i :: sch, s => runQueue o sch (enqueueStep i s)
  | none :: sch, s =>
      let p := internalStep o s
      let q := runQueue o sch p.2
      (p.1 ++ q.1, q.2)

/-- The initial state: empty queue, procesando false
(src/bot/index.js lines 35-36). -/
def initQState : QState := ⟨.idle, [], 0⟩

/-- The items whose forwarding began, in order of the trace. -/
def begunOf (t : List QEv) : List QueueItem :=
  t.filterMap fun e => match e with
    | .begin i => some i
    | _ => none

/-- The items enqueued by a schedule, in arrival order. -/
def enqueuedOf (sch : List (Option QueueItem)) : List QueueItem :=
  sch.filterMap id

/-- Scanner checking that forwards are well nested in a trace: a begin
may occur only when no forward is in flight, and a finish must name the
item whose forward is in flight.  The accumulator is the in-flight
item. -/
def wfScan : List QEv → Option QueueItem → Bool
  | [], _ => true
  | .begin i :: t, none => wfScan t (some i)
  | .begin _ :: _, some _ => false
  | .finish i _ :: t, some j => decide (i = j) && wfScan t none
  | .finish _ _ :: _, none => false
  | .delay _ :: t, c => wfScan t c

/-- Checks that in a trace every finish is immediately followed, if
anything follows it, by a 2000 ms delay. -/
def delayAfterFinish : List QEv → Bool
  | .finish _ _ :: .delay 2000 :: t => delayAfterFinish (.delay 2000 :: t)
  | .finish _ _ :: _ :: _ => false
  | _ :: t => delayAfterFinish t
  | [] => true

/-- The in-flight item of a state, as the wfScan accumulator. -/
def inflightOpt (s : QState) : Option QueueItem :=
  match s.phase with
  | .forwarding i => some i
  | _ => none

theorem runQueue_nil (o : Nat → ForwardOutcome) (s : QState) :
    runQueue o [] s = ([], s) := rfl

theorem runQueue_cons_some (o : Nat → ForwardOutcome) (i : QueueItem)
    (sch : List (Option QueueItem)) (s : QState) :
    runQueue o (some i :: sch) s = runQueue o sch (enqueueStep i s) := rfl

theorem runQueue_cons_none (o : Nat → ForwardOutcome)
    (sch : List (Option QueueItem)) (s : QState) :
    runQueue o (none :: sch) s
      = ((internalStep o s).1 ++ (runQueue o sch (internalStep o s).2).1,
         (runQueue o sch (internalStep o s).2).2) := rfl

theorem enqueueStep_cola (i : QueueItem) (s : QState) :
    (enqueueStep i s).cola = s.cola ++ [i] := by
  rcases s with ⟨ph, cola, n⟩
  cases ph <;> rfl

theorem inflightOpt_enqueueStep (i : QueueItem) (s : QState) :
    inflightOpt (enqueueStep i s) = inflightOpt s := by
  rcases s with ⟨ph, cola, n⟩
  cases ph <;> rfl

theorem begunOf_append (a b : List QEv) :
    begunOf (a ++ b) = begunOf a ++ begunOf b := by
  simp [begunOf, List.filterMap_append]

theorem delayAfterFinish_begin (i : QueueItem) (t : List QEv) :
    delayAfterFinish (.begin i :: t) = delayAfterFinish t := rfl

theorem delayAfterFinish_delay (m : Nat) (t : List QEv) :
    delayAfterFinish (.delay m :: t) = delayAfterFinish t := rfl

theorem delayAfterFinish_finish_delay (i : QueueItem) (r : ForwardOutcome)
    (t : List QEv) :
    delayAfterFinish (.finish i r :: .delay 2000 :: t)
      = delayAfterFinish (.delay 2000 :: t) := rfl

theorem delayAfterFinish_finish_nil (i : QueueItem) (r : ForwardOutcome) :
    delayAfterFinish [.finish i r] = true := rfl

/-- Ledger invariant: along any schedule, the items whose forward began,
followed by the items still queued at the end, are exactly the items
queued at the start followed by the arrivals, in order. -/
theorem runQueue_ledger (o : Nat → ForwardOutcome) :
    ∀ (sch : List (Option QueueItem)) (s : QState),
      begunOf (runQueue o sch s).1 ++ (runQueue o sch s).2.cola
        = s.cola ++ enqueuedOf sch := by
  intro sch
  induction sch with
  | nil =>
    intro s
    simp [runQueue_nil, begunOf, enqueuedOf]
  | cons e sch ih =>
    intro s
    cases e with
    | some i =>
      rw [runQueue_cons_some, ih, enqueueStep_cola]
      simp [enqueuedOf, List.append_assoc]
    | none =>
      rw [runQueue_cons_none]
      rcases s with ⟨ph, cola, n⟩
      cases ph with
      | idle =>
        have h := ih ⟨.idle, cola, n⟩
        simpa [internalStep, begunOf_append, enqueuedOf] using h
      | looping =>
        cases cola with
        | nil =>
          have h := ih ⟨.idle, [], n⟩
          simpa [internalStep, begunOf_append, enqueuedOf] using h
        | cons i rest =>
          have h := ih ⟨.forwarding i, rest, n⟩
          simp [internalStep, begunOf_append, begunOf, enqueuedOf] at h ⊢
          simp [h]
      | forwarding i =>
        have h := ih ⟨.delaying, cola, n + 1⟩
        simpa [internalStep, begunOf_append, begunOf, enqueuedOf] using h
      | delaying =>
        have h := ih ⟨.looping, cola, n⟩
        simpa [internalStep, begunOf_append, begunOf, enqueuedOf] using h

/-- Exclusivity invariant: any trace of the machine is well nested, so at
most one forward is in flight at any instant, and every finish closes
the begin of the same item. -/
theorem runQueue_wfScan (o : Nat → ForwardOutcome) :
    ∀ (sch : List (Option QueueItem)) (s : QState),
      wfScan (runQueue o sch s).1 (inflightOpt s) = true := by
  intro sch
  induction sch with
  | nil => intro s; simp [runQueue_nil, wfScan]
  | cons e sch ih =>
    intro s
    cases e with
    | some i =>
      rw [runQueue_cons_some]
      have h := ih (enqueueStep i s)
      rwa [inflightOpt_enqueueStep] at h
    | none =>
      rw [runQueue_cons_none]
      rcases s with ⟨ph, cola, n⟩
      cases ph with
      | idle =>
        simpa [internalStep, inflightOpt] using ih ⟨.idle, cola, n⟩
      | looping =>
        cases cola with
        | nil =>
          simpa [internalStep, inflightOpt] using ih ⟨.idle, [], n⟩
        | cons i rest =>
          have h := ih ⟨.forwarding i, rest, n⟩
          simpa [internalStep, inflightOpt, wfScan] using h
      | forwarding i =>
        have h := ih ⟨.delaying, cola, n + 1⟩
        simpa [internalStep, inflightOpt, wfScan] using h
      | delaying =>
        have h := ih ⟨.looping, cola, n⟩
        simpa [internalStep, inflightOpt, wfScan] using h

/-- From the delaying phase, the first event a run can emit is the
2000 ms delay. -/
theorem runQueue_delaying_head (o : Nat → ForwardOutcome) :
    ∀ (sch : List (Option QueueItem)) (s : QState), s.phase = .delaying →
      (runQueue o sch s).1 = []
        ∨ ∃ t, (runQueue o sch s).1 = .delay 2000 :: t := by
  intro sch
  induction sch with
  | nil => intro s _; left; rfl
  | cons e sch ih =>
    intro s hs
    cases e with
    | some i =>
      rw [runQueue_cons_some]
      refine ih (enqueueStep i s) ?_
      rcases s with ⟨ph, cola, n⟩
      cases ph <;> simp_all [enqueueStep]
    | none =>
      rw [runQueue_cons_none]
      rcases s with ⟨ph, cola, n⟩
      cases ph <;> simp_all [internalStep]

/-- Throttle invariant: in any trace, a 2000 ms delay immediately follows
every completed forward, whatever its outcome. -/
theorem runQueue_delayAfterFinish (o : Nat → ForwardOutcome) :
    ∀ (sch : List (Option QueueItem)) (s : QState),
      delayAfterFinish (runQueue o sch s).1 = true := by
  intro sch
  induction sch with
  | nil => intro s; rfl
  | cons e sch ih =>
    intro s
    cases e with
    | some i => rw [runQueue_cons_some]; exact ih (enqueueStep i s)
    | none =>
      rw [runQueue_cons_none]
      rcases s with ⟨ph, cola, n⟩
      cases ph with
      | idle => simpa [internalStep] using ih ⟨.idle, cola, n⟩
      | looping =>
        cases cola with
        | nil => simpa [internalStep] using ih ⟨.idle, [], n⟩
        | cons i rest =>
          have h := ih ⟨.forwarding i, rest, n⟩
          simpa [internalStep, delayAfterFinish_begin] using h
      | forwarding i =>
        have h := ih ⟨.delaying, cola, n + 1⟩
        have hd := runQueue_delaying_head o sch ⟨.delaying, cola, n + 1⟩ rfl
        simp only [internalStep]
        rcases hd with hd | ⟨t, hd⟩
        · rw [hd]
          exact delayAfterFinish_finish_nil i (o n)
        · rw [hd]
          rw [hd] at h
          simpa [delayAfterFinish_finish_delay, delayAfterFinish_delay]
            using h
      | delaying =>
        have h := ih ⟨.looping, cola, n⟩
        simpa [internalStep, delayAfterFinish_delay] using h

/-- All-whitespace strings trim to the empty string. -/
theorem jsTrim_of_whitespace (s : String)
    (h : ∀ c ∈ s.data, c.isWhitespace = true) : jsTrim s = "" := by
  have h1 : List.dropWhile Char.isWhitespace s.data = [] :=
    List.dropWhile_eq_nil_iff.mpr h
  simp [jsTrim, h1]

/-- Sample eligible queue items used by the concrete witnesses below. -/
def itemA : QueueItem :=
  ⟨⟨"ZGF0YQ==", "application/pdf", some "a.pdf"⟩,
   ⟨"5491111111111@c.us", false, true, some "pago alquiler"⟩⟩

def itemB : QueueItem :=
  ⟨⟨"aW1hZ2Vi", "image/png", none⟩, ⟨"5492222222222@c.us", false, true, none⟩⟩

/-- A sample outcome oracle: every forward times out. -/
def oracle0 : Nat → ForwardOutcome :=
  fun _ => .err (some "ETIMEDOUT") "timeout of 120000ms exceeded"

/-- A sample schedule: two arrivals, then enough internal steps to drain. -/
def sched0 : List (Option QueueItem) :=
  [some itemA, some itemB, none, none, none, none, none, none, none]

/-- C1: the ingestion queue is drained by a single consumer loop guarded
by the procesando flag: along any schedule of arrivals and internal
steps, the forwarded items form a prefix of the enqueued items in arrival
order (and exactly all of them once the final queue is empty), forwards
are well nested so at most one item is being forwarded at any instant, a
2000 ms delay follows every forward regardless of its outcome, the loop
exits to the idle phase when the queue is empty, an enqueue in the idle
phase restarts the loop, and an enqueue while the loop is active only
appends (the guarded re-entrant call does nothing). -/
theorem C1_queue_single_consumer_fifo (o : Nat → ForwardOutcome)
    (sch : List (Option QueueItem)) (i : QueueItem) (ph : Phase)
    (q : List QueueItem) (n : Nat) (hph : ph ≠ Phase.idle) :
    (∃ rest, begunOf (runQueue o sch initQState).1 ++ rest = enqueuedOf sch) ∧
    begunOf (runQueue o sch initQState).1 ++ (runQueue o sch initQState).2.cola
      = enqueuedOf sch ∧
    wfScan (runQueue o sch initQState).1 none = true ∧
    delayAfterFinish (runQueue o sch initQState).1 = true ∧
    enqueueStep i ⟨.idle, q, n⟩ = ⟨.looping, q ++ [i], n⟩ ∧
    enqueueStep i ⟨ph, q, n⟩ = ⟨ph, q ++ [i], n⟩ ∧
    internalStep o ⟨.looping, [], n⟩ = ([], ⟨.idle, [], n⟩) := by
  have hl := runQueue_ledger o sch initQState
  simp only [initQState, List.nil_append] at hl
  refine ⟨⟨(runQueue o sch initQState).2.cola, hl⟩, hl, ?_, ?_, rfl, ?_, rfl⟩
  · have hw := runQueue_wfScan o sch initQState
    simpa [initQState, inflightOpt] using hw
  · exact runQueue_delayAfterFinish o sch initQState
  · cases ph with
    | idle => exact absurd rfl hph
    | looping => rfl
    | forwarding j => rfl
    | delaying => rfl

/-- C1 witness: the properties evaluated on a concrete oracle and
schedule. -/
theorem C1_queue_single_consumer_fifo_witness :
    (Phase.looping ≠ Phase.idle) ∧
    ((∃ rest, begunOf (runQueue oracle0 sched0 initQState).1 ++ rest
        = enqueuedOf sched0) ∧
    begunOf (runQueue oracle0 sched0 initQState).1
        ++ (runQueue oracle0 sched0 initQState).2.cola
      = enqueuedOf sched0 ∧
    wfScan (runQueue oracle0 sched0 initQState).1 none = true ∧
    delayAfterFinish (runQueue oracle0 sched0 initQState).1 = true ∧
    enqueueStep itemA ⟨.idle, [itemB], 3⟩ = ⟨.looping, [itemB] ++ [itemA], 3⟩ ∧
    enqueueStep itemA ⟨.looping, [itemB], 3⟩ = ⟨.looping, [itemB] ++ [itemA], 3⟩ ∧
    internalStep oracle0 ⟨.looping, [], 3⟩ = ([], ⟨.idle, [], 3⟩)) :=
  ⟨by decide,
   C1_queue_single_consumer_fifo oracle0 sched0 itemA .looping [itemB] 3
     (by decide)⟩

/-- C2: when the forward of a QueueItem throws, a connection-refused
error code yields the "service unreachable" reply text, a timeout error
code yields the "too slow" reply text, and any other error yields the
generic failure reply text; in all three cases exactly one reply is
attempted (whether the reply itself succeeds or not), and no item is ever
forwarded more times than it was enqueued. -/
theorem C2_forward_error_reply_mapping (item : QueueItem) (nowMs : Nat)
    (code : Option String) (emsg : String) (replyResult : Except String Unit)
    (o : Nat → ForwardOutcome) (sch : List (Option QueueItem)) (q : QueueItem) :
    procesarItem item nowMs (.err code emsg) replyResult
      = .ok ⟨[procLine item nowMs, errorLogLine code emsg],
          [mensajeError code], buildRequest item nowMs, API_TIMEOUT⟩ ∧
    (code = some "ECONNREFUSED" → mensajeError code
      = "❌ Error: El sistema principal no está respondiendo (API caída).") ∧
    (code = some "ETIMEDOUT" → mensajeError code
      = "❌ Error: Tiempo de espera agotado al procesar.") ∧
    (code ≠ some "ECONNREFUSED" → code ≠ some "ETIMEDOUT" →
      mensajeError code = "❌ Error al procesar comprobante.") ∧
    List.count q (begunOf (runQueue o sch initQState).1)
      ≤ List.count q (enqueuedOf sch) := by
  refine ⟨?_, ?_, ?_, ?_, ?_⟩
  · cases replyResult with
    | ok u => rfl
    | error e => rfl
  · intro h; simp [mensajeError, h]
  · intro h
    have : code ≠ some "ECONNREFUSED" := by
      rw [h]; intro hx; exact absurd (Option.some.inj hx) (by decide)
    simp [mensajeError, this, h]
  · intro h1 h2; simp [mensajeError, h1, h2]
  · have hl : begunOf (runQueue o sch initQState).1
        ++ (runQueue o sch initQState).2.cola = enqueuedOf sch := by
      have h0 := runQueue_ledger o sch initQState
      simpa [initQState] using h0
    calc List.count q (begunOf (runQueue o sch initQState).1)
        ≤ List.count q (begunOf (runQueue o sch initQState).1)
            + List.count q (runQueue o sch initQState).2.cola :=
          Nat.le_add_right _ _
      _ = List.count q (begunOf (runQueue o sch initQState).1
            ++ (runQueue o sch initQState).2.cola) :=
          (List.count_append ..).symm
      _ = List.count q (enqueuedOf sch) := by rw [hl]

/-- C2 witness: the timeout case evaluated concretely. -/
theorem C2_forward_error_reply_mapping_witness :
    procesarItem itemA 7 (.err (some "ETIMEDOUT") "timeout") (.ok ())
      = .ok ⟨[procLine itemA 7, errorLogLine (some "ETIMEDOUT") "timeout"],
          [mensajeError (some "ETIMEDOUT")], buildRequest itemA 7, API_TIMEOUT⟩ ∧
    (some "ETIMEDOUT" = some "ECONNREFUSED" → mensajeError (some "ETIMEDOUT")
      = "❌ Error: El sistema principal no está respondiendo (API caída).") ∧
    ((some "ETIMEDOUT" : Option String) = some "ETIMEDOUT"
      → mensajeError (some "ETIMEDOUT")
        = "❌ Error: Tiempo de espera agotado al procesar.") ∧
    (some "ETIMEDOUT" ≠ some "ECONNREFUSED"
      → (some "ETIMEDOUT" : Option String) ≠ some "ETIMEDOUT"
      → mensajeError (some "ETIMEDOUT") = "❌ Error al procesar comprobante.") ∧
    List.count itemB (begunOf (runQueue oracle0 sched0 initQState).1)
      ≤ List.count itemB (enqueuedOf sched0) :=
  C2_forward_error_reply_mapping itemA 7 (some "ETIMEDOUT") "timeout" (.ok ())
    oracle0 sched0 itemB

/-- C3: for a downloaded attachment of a non-excluded media message, a
QueueItem is produced if and only if the MIME type is in the four-element
allow-list; otherwise the type is logged, the attachment is discarded and
no reply is sent. -/
theorem C3_mime_allowlist (msg : Msg) (media : Media)
    (replyResult : Except String Unit)
    (h1 : msg.fromMe = false) (h2 : msg.from_ ≠ "status@broadcast")
    (h3 : jsEndsWith msg.from_ "@g.us" = false) (h4 : msg.hasMedia = true) :
    ∃ res, messageCreate msg (.ok (some media)) replyResult = .ok res ∧
      (res.enqueued.isSome ↔ media.mimetype ∈ tiposValidos) ∧
      (media.mimetype ∈ tiposValidos → res.enqueued = some ⟨media, msg⟩) ∧
      (media.mimetype ∉ tiposValidos →
        res.enqueued = none ∧
        ("⚠️ Tipo no soportado: " ++ media.mimetype) ∈ res.logs) ∧
      res.replies = [] := by
  by_cases hm : media.mimetype ∈ tiposValidos
  · refine ⟨⟨[dbgLine msg, descargandoLine msg, recibidoLine media msg], [],
      some ⟨media, msg⟩, true⟩, ?_, ?_, fun _ => rfl, fun hc => absurd hm hc, rfl⟩
    · simp [messageCreate, h1, h2, h3, h4, hm]
    · simp [hm]
  · refine ⟨⟨[dbgLine msg, descargandoLine msg,
      "⚠️ Tipo no soportado: " ++ media.mimetype], [], none, true⟩, ?_, ?_,
      fun hc => absurd hc hm, fun _ => ⟨rfl, by simp⟩, rfl⟩
    · simp [messageCreate, h1, h2, h3, h4, hm]
    · simp [hm]

/-- C3 witness: a rejected GIF attachment, evaluated concretely. -/
theorem C3_mime_allowlist_witness :
    ((⟨"5493@c.us", false, true, none⟩ : Msg).fromMe = false) ∧
    ((⟨"5493@c.us", false, true, none⟩ : Msg).from_ ≠ "status@broadcast") ∧
    (jsEndsWith (⟨"5493@c.us", false, true, none⟩ : Msg).from_ "@g.us" = false) ∧
    ((⟨"5493@c.us", false, true, none⟩ : Msg).hasMedia = true) ∧
    (∃ res, messageCreate ⟨"5493@c.us", false, true, none⟩
        (.ok (some ⟨"R0lGODxh", "image/gif", some "anim.gif"⟩)) (.ok ())
        = .ok res ∧
      (res.enqueued.isSome ↔
        ("image/gif" : String) ∈ tiposValidos) ∧
      (("image/gif" : String) ∈ tiposValidos →
        res.enqueued = some ⟨⟨"R0lGODxh", "image/gif", some "anim.gif"⟩,
          ⟨"5493@c.us", false, true, none⟩⟩) ∧
      (("image/gif" : String) ∉ tiposValidos →
        res.enqueued = none ∧
        ("⚠️ Tipo no soportado: " ++ "image/gif") ∈ res.logs) ∧
      res.replies = []) :=
  ⟨rfl, by decide, by decide, rfl,
   C3_mime_allowlist ⟨"5493@c.us", false, true, none⟩
     ⟨"R0lGODxh", "image/gif", some "anim.gif"⟩ (.ok ())
     rfl (by decide) (by decide) rfl⟩

/-- C4: a self-sent, broadcast-channel or group-addressed event is
discarded before any attachment handling: whatever the download oracle
and reply oracle would do, only the debug line is printed, nothing is
enqueued, no reply is attempted and downloadMedia is never invoked. -/
theorem C4_exclusion_rules (msg : Msg) (download : Except String (Option Media))
    (replyResult : Except String Unit)
    (h : msg.fromMe = true ∨ msg.from_ = "status@broadcast"
        ∨ jsEndsWith msg.from_ "@g.us" = true) :
    messageCreate msg download replyResult
      = .ok ⟨[dbgLine msg], [], none, false⟩ := by
  rcases h with h | h | h
  · simp [messageCreate, h]
  · by_cases h1 : msg.fromMe = true
    · simp [messageCreate, h1]
    · simp [messageCreate, h1, h]
  · by_cases h1 : msg.fromMe = true
    · simp [messageCreate, h1]
    · by_cases h2 : msg.from_ = "status@broadcast"
      · simp [messageCreate, h1, h2]
      · simp [messageCreate, h1, h2, h]

/-- C4 witness: a group message with media, evaluated concretely; the
download oracle even returns a valid PDF, yet nothing happens. -/
theorem C4_exclusion_rules_witness :
    ((⟨"12036@g.us", false, true, some "hola"⟩ : Msg).fromMe = true
      ∨ (⟨"12036@g.us", false, true, some "hola"⟩ : Msg).from_
          = "status@broadcast"
      ∨ jsEndsWith (⟨"12036@g.us", false, true, some "hola"⟩ : Msg).from_
          "@g.us" = true) ∧
    messageCreate ⟨"12036@g.us", false, true, some "hola"⟩
        (.ok (some ⟨"JVBERi0=", "application/pdf", none⟩)) (.ok ())
      = .ok ⟨[dbgLine ⟨"12036@g.us", false, true, some "hola"⟩], [],
          none, false⟩ :=
  ⟨Or.inr (Or.inr (by decide)),
   C4_exclusion_rules ⟨"12036@g.us", false, true, some "hola"⟩
     (.ok (some ⟨"JVBERi0=", "application/pdf", none⟩)) (.ok ())
     (Or.inr (Or.inr (by decide)))⟩

/-- A non-excluded text message whose body is one space. -/
def msgWs : Msg := ⟨"5491122334455@c.us", false, false, some " "⟩

/-- C5 counterexample: the claim says a non-empty text body always gets
the informational reply, but a body consisting of a single space is
non-empty ((msg.body || '') is " ", not "") and the handler sends no
reply at all, because the code trims the body before the length check. -/
theorem C5_counterexample :
    jsOr msgWs.body "" ≠ "" ∧ msgWs.hasMedia = false ∧ msgWs.fromMe = false ∧
    msgWs.from_ ≠ "status@broadcast" ∧ jsEndsWith msgWs.from_ "@g.us" = false ∧
    messageCreate msgWs (.ok none) (.ok ())
      = .ok ⟨[dbgLine msgWs], [], none, false⟩ :=
  ⟨by decide, rfl, rfl, by decide, by decide, by decide⟩

/-- C5 (amended): for a non-excluded event with no attachment, if the
body is non-empty after trimming whitespace then exactly one reply with
the receipts-only text is attempted and nothing is enqueued (nor
downloaded); if the body trims to the empty string the event is
discarded silently with no reply. -/
theorem C5_text_reply_trimmed (msg : Msg)
    (download : Except String (Option Media)) (replyResult : Except String Unit)
    (h1 : msg.fromMe = false) (h2 : msg.from_ ≠ "status@broadcast")
    (h3 : jsEndsWith msg.from_ "@g.us" = false) (h4 : msg.hasMedia = false) :
    ((jsTrim (jsOr msg.body "")).length > 0 →
      ∃ res, messageCreate msg download replyResult = .ok res ∧
        res.replies = [receiptsOnlyText] ∧ res.enqueued = none ∧
        res.downloaded = false) ∧
    (jsTrim (jsOr msg.body "") = "" →
      messageCreate msg download replyResult
        = .ok ⟨[dbgLine msg], [], none, false⟩) := by
  constructor
  · intro hlen
    cases replyResult with
    | ok u =>
      refine ⟨⟨[dbgLine msg, "💬 Texto recibido de " ++ msg.from_ ++ ": \""
          ++ jsSubstring (jsTrim (jsOr msg.body "")) 50 ++ "...\""],
        [receiptsOnlyText], none, false⟩, ?_, rfl, rfl, rfl⟩
      simp [messageCreate, h1, h2, h3, h4, hlen]
    | error e =>
      refine ⟨⟨[dbgLine msg, "💬 Texto recibido de " ++ msg.from_ ++ ": \""
          ++ jsSubstring (jsTrim (jsOr msg.body "")) 50 ++ "...\"",
          "❌ Error al responder: " ++ e],
        [receiptsOnlyText], none, false⟩, ?_, rfl, rfl, rfl⟩
      simp [messageCreate, h1, h2, h3, h4, hlen]
  · intro hemp
    have hz : (jsTrim (jsOr msg.body "")).length = 0 := by rw [hemp]; rfl
    simp [messageCreate, h1, h2, h3, h4, hz]

/-- C5 witness: both branches evaluated concretely, on a "hola" body and
on an empty body. -/
theorem C5_text_reply_trimmed_witness :
    (((⟨"5494@c.us", false, false, some "hola"⟩ : Msg).fromMe = false) ∧
     ((⟨"5494@c.us", false, false, some "hola"⟩ : Msg).from_
        ≠ "status@broadcast") ∧
     (jsEndsWith (⟨"5494@c.us", false, false, some "hola"⟩ : Msg).from_
        "@g.us" = false) ∧
     (jsTrim (jsOr (⟨"5494@c.us", false, false, some "hola"⟩ : Msg).body
        "")).length > 0) ∧
    ((jsTrim (jsOr (⟨"5494@c.us", false, false, some "hola"⟩ : Msg).body
        "")).length > 0 →
      ∃ res, messageCreate ⟨"5494@c.us", false, false, some "hola"⟩
          (.ok none) (.ok ()) = .ok res ∧
        res.replies = [receiptsOnlyText] ∧ res.enqueued = none ∧
        res.downloaded = false) ∧
    (jsTrim (jsOr (⟨"5494@c.us", false, false, some "hola"⟩ : Msg).body "")
        = "" →
      messageCreate ⟨"5494@c.us", false, false, some "hola"⟩ (.ok none) (.ok ())
        = .ok ⟨[dbgLine ⟨"5494@c.us", false, false, some "hola"⟩], [],
            none, false⟩) :=
  ⟨⟨rfl, by decide, by decide, by decide⟩,
   C5_text_reply_trimmed ⟨"5494@c.us", false, false, some "hola"⟩
     (.ok none) (.ok ()) rfl (by decide) (by decide) rfl⟩

/-- A successful service response whose extracted amount is the number 0
and whose issuer is "Juan". -/
def respZero : ApiResponse := ⟨true, none, some ⟨some 0, some "Juan"⟩⟩

/-- C6 counterexample: the claim says that on a successful response the
extracted monetary amount is logged, but for the present amount 0 the JS
defaulting data?.monto_numerico || makes the code log the placeholder
string instead of the amount: the success line reads $N/A although the
response carries monto_numerico = 0. -/
theorem C6_counterexample :
    respZero.success = true ∧ getMonto respZero = some 0 ∧
    montoShown respZero = "N/A" ∧ montoShown respZero ≠ toString (0 : Int) ∧
    procesarItem itemA 5 (.ok respZero) (.ok ())
      = .ok ⟨[procLine itemA 5, "✅ Procesado: $N/A de Juan"], [],
          buildRequest itemA 5, API_TIMEOUT⟩ :=
  ⟨rfl, rfl, rfl, by decide, by decide⟩

/-- C6 (amended): for a forwarded item whose HTTP call completes, if the
success flag is true the handler logs the amount and issuer, rendering a
missing or JS-falsy field (absent amount or amount 0; absent or empty
issuer) as the placeholder N/A resp. Desconocido and the extracted value
otherwise; if the success flag is false the service's message is logged
as a warning; in both cases no reply is attempted. -/
theorem C6_response_logging (item : QueueItem) (nowMs : Nat) (r : ApiResponse)
    (replyResult : Except String Unit) :
    (r.success = true → procesarItem item nowMs (.ok r) replyResult
      = .ok ⟨[procLine item nowMs,
          "✅ Procesado: $" ++ montoShown r ++ " de " ++ emisorShown r], [],
          buildRequest item nowMs, API_TIMEOUT⟩) ∧
    (r.success = false → procesarItem item nowMs (.ok r) replyResult
      = .ok ⟨[procLine item nowMs, "⚠️  Procesado con advertencia: "
            ++ (match r.message with | some m => m | none => "undefined")], [],
          buildRequest item nowMs, API_TIMEOUT⟩) ∧
    (∀ m, getMonto r = some m → m ≠ 0 → montoShown r = toString m) ∧
    (getMonto r = none → montoShown r = "N/A") ∧
    (∀ e, getEmisor r = some e → e ≠ "" → emisorShown r = e) ∧
    (getEmisor r = none → emisorShown r = "Desconocido") := by
  refine ⟨?_, ?_, ?_, ?_, ?_, ?_⟩
  · intro hs; simp [procesarItem, hs]
  · intro hs; simp [procesarItem, hs]
  · intro m hm hnz; simp [montoShown, jsOrNum, hm, hnz]
  · intro hm; simp [montoShown, jsOrNum, hm]
  · intro e he hne; simp [emisorShown, jsOr, he, hne]
  · intro he; simp [emisorShown, jsOr, he]

/-- C6 witness: a successful response with amount 1500 and issuer Juan,
evaluated concretely. -/
theorem C6_response_logging_witness :
    ((⟨true, none, some ⟨some 1500, some "Juan"⟩⟩ : ApiResponse).success = true
      → procesarItem itemB 9
          (.ok ⟨true, none, some ⟨some 1500, some "Juan"⟩⟩) (.ok ())
        = .ok ⟨[procLine itemB 9, "✅ Procesado: $"
              ++ montoShown ⟨true, none, some ⟨some 1500, some "Juan"⟩⟩
              ++ " de "
              ++ emisorShown ⟨true, none, some ⟨some 1500, some "Juan"⟩⟩], [],
            buildRequest itemB 9, API_TIMEOUT⟩) ∧
    ((⟨true, none, some ⟨some 1500, some "Juan"⟩⟩ : ApiResponse).success = false
      → procesarItem itemB 9
          (.ok ⟨true, none, some ⟨some 1500, some "Juan"⟩⟩) (.ok ())
        = .ok ⟨[procLine itemB 9, "⚠️  Procesado con advertencia: "
              ++ (match (⟨true, none, some ⟨some 1500, some "Juan"⟩⟩
                    : ApiResponse).message with
                  | some m => m | none => "undefined")], [],
            buildRequest itemB 9, API_TIMEOUT⟩) ∧
    (∀ m, getMonto ⟨true, none, some ⟨some 1500, some "Juan"⟩⟩ = some m
      → m ≠ 0
      → montoShown ⟨true, none, some ⟨some 1500, some "Juan"⟩⟩ = toString m) ∧
    (getMonto ⟨true, none, some ⟨some 1500, some "Juan"⟩⟩ = none
      → montoShown ⟨true, none, some ⟨some 1500, some "Juan"⟩⟩ = "N/A") ∧
    (∀ e, getEmisor ⟨true, none, some ⟨some 1500, some "Juan"⟩⟩ = some e
      → e ≠ ""
      → emisorShown ⟨true, none, some ⟨some 1500, some "Juan"⟩⟩ = e) ∧
    (getEmisor ⟨true, none, some ⟨some 1500, some "Juan"⟩⟩ = none
      → emisorShown ⟨true, none, some ⟨some 1500, some "Juan"⟩⟩
        = "Desconocido") :=
  C6_response_logging itemB 9 ⟨true, none, some ⟨some 1500, some "Juan"⟩⟩
    (.ok ())

/-- C7: both reply sites are best effort.  A failing msg.reply in the
catch branch of procesarCola changes nothing at all (the empty catch
swallows it), and a failing msg.reply in the text-only branch of the
handler is caught and merely logged: the handler still returns normally
with the same reply attempt, the same enqueue decision and the same
download decision.  Neither function can propagate the failure, as both
always return Except.ok. -/
theorem C7_reply_best_effort (item : QueueItem) (nowMs : Nat)
    (outcome : ForwardOutcome) (e : String) (msg : Msg)
    (download : Except String (Option Media)) :
    procesarItem item nowMs outcome (.error e)
      = procesarItem item nowMs outcome (.ok ()) ∧
    (∃ res, procesarItem item nowMs outcome (.error e) = .ok res) ∧
    (∃ r1 r2, messageCreate msg download (.error e) = .ok r1 ∧
      messageCreate msg download (.ok ()) = .ok r2 ∧
      r1.replies = r2.replies ∧ r1.enqueued = r2.enqueued ∧
      r1.downloaded = r2.downloaded) := by
  refine ⟨?_, ?_, ?_⟩
  · cases outcome with
    | ok r => rfl
    | err code emsg => rfl
  · simp only [procesarItem]
    repeat' split
    all_goals exact ⟨_, rfl⟩
  · simp only [messageCreate]
    repeat' split
    all_goals exact ⟨_, _, rfl, rfl, rfl, rfl, rfl⟩

/-- C7 witness: a timed-out forward whose failure reply itself fails, and
a text message whose receipts-only reply fails, evaluated concretely. -/
theorem C7_reply_best_effort_witness :
    procesarItem itemA 3 (.err (some "ECONNREFUSED") "refused")
        (.error "reply failed")
      = procesarItem itemA 3 (.err (some "ECONNREFUSED") "refused") (.ok ()) ∧
    (∃ res, procesarItem itemA 3 (.err (some "ECONNREFUSED") "refused")
        (.error "reply failed") = .ok res) ∧
    (∃ r1 r2, messageCreate ⟨"5495@c.us", false, false, some "gracias"⟩
        (.ok none) (.error "reply failed") = .ok r1 ∧
      messageCreate ⟨"5495@c.us", false, false, some "gracias"⟩
        (.ok none) (.ok ()) = .ok r2 ∧
      r1.replies = r2.replies ∧ r1.enqueued = r2.enqueued ∧
      r1.downloaded = r2.downloaded) :=
  C7_reply_best_effort itemA 3 (.err (some "ECONNREFUSED") "refused")
    "reply failed" ⟨"5495@c.us", false, false, some "gracias"⟩ (.ok none)

/-- C8 counterexample: the claim says the request carries the
attachment's receipt timestamp, but procesarCola stamps the request with
new Date() at the moment the item is dequeued.  Concretely: itemA is
received at clock 0 and itemB at clock 1 (during the drain); the drain
starting at clock 0 forwards itemA at 0 but itemB only at 2000 (after
the fixed 2000 ms inter-item delay), so itemB's request carries the
rendering of instant 2000, not of its receipt instant 1. -/
theorem C8_counterexample :
    drainTimed 0 [(itemA, 0), (itemB, 1)]
      = [(0, buildRequest itemA 0), (2000, buildRequest itemB 2000)] ∧
    (buildRequest itemB 2000).timestamp = toISOString 2000 ∧
    toISOString 2000 ≠ toISOString 1 :=
  ⟨rfl, rfl, by decide⟩

/-- C8 (amended): every forwarded QueueItem results in a single HTTP
request carrying the attachment's base64 payload, its MIME type, the
sender address, the clock at the moment of forwarding rendered by
toISOString (not the receipt time, which the QueueItem does not carry),
and the original message text with empty default; the request is
configured with the fixed 120000 ms timeout API_TIMEOUT. -/
theorem C8_request_contents (item : QueueItem) (nowMs : Nat)
    (outcome : ForwardOutcome) (replyResult : Except String Unit) :
    (∃ res, procesarItem item nowMs outcome replyResult = .ok res ∧
      res.request = ⟨item.media.data, item.msg.from_, item.media.mimetype,
        toISOString nowMs, jsOr item.msg.body ""⟩ ∧
      res.timeoutMs = 120000) ∧
    API_TIMEOUT = 120000 := by
  refine ⟨?_, rfl⟩
  simp only [procesarItem]
  repeat' split
  all_goals exact ⟨_, rfl, rfl, rfl⟩

/-- C8 witness: a successful forward of itemA at clock 4000, evaluated
concretely. -/
theorem C8_request_contents_witness :
    (∃ res, procesarItem itemA 4000 (.ok ⟨true, none, none⟩) (.ok ())
        = .ok res ∧
      res.request = ⟨itemA.media.data, itemA.msg.from_, itemA.media.mimetype,
        toISOString 4000, jsOr itemA.msg.body ""⟩ ∧
      res.timeoutMs = 120000) ∧
    API_TIMEOUT = 120000 :=
  C8_request_contents itemA 4000 (.ok ⟨true, none, none⟩) (.ok ())

/-- C9: every disconnected event, whatever its reason string, makes the
supervisor schedule client.initialize() after the fixed 5000 ms delay
(the last of its four actions), and the reconnection is unbounded: n
disconnect events yield exactly n scheduled re-initializations. -/
theorem C9_reconnect_on_disconnect (reason : String) (reasons : List String) :
    onDisconnected reason
      = [.log ("🔌 Desconectado: " ++ reason),
         .log ("🔌 Desconectado: " ++ reason),
         .log "Intentando reconectar en 5 segundos...",
         .scheduleReinit 5000] ∧
    SupAction.scheduleReinit 5000 ∈ onDisconnected reason ∧
    countReinits (superviseDisconnects reasons) = reasons.length := by
  refine ⟨rfl, by simp [onDisconnected], ?_⟩
  induction reasons with
  | nil => rfl
  | cons r rs ih =>
    simp [superviseDisconnects, countReinits, List.countP_append,
      onDisconnected, List.countP_cons] at ih ⊢
    omega

/-- C9 witness: three disconnects with assorted reasons, evaluated
concretely. -/
theorem C9_reconnect_on_disconnect_witness :
    onDisconnected "NAVIGATION"
      = [.log ("🔌 Desconectado: " ++ "NAVIGATION"),
         .log ("🔌 Desconectado: " ++ "NAVIGATION"),
         .log "Intentando reconectar en 5 segundos...",
         .scheduleReinit 5000] ∧
    SupAction.scheduleReinit 5000 ∈ onDisconnected "NAVIGATION" ∧
    countReinits (superviseDisconnects ["NAVIGATION", "LOGOUT", ""])
      = (["NAVIGATION", "LOGOUT", ""] : List String).length :=
  C9_reconnect_on_disconnect "NAVIGATION" ["NAVIGATION", "LOGOUT", ""]

/-- C10: a non-excluded, attachment-free event whose body consists only
of whitespace characters is treated exactly like an empty-bodied one:
the trim at src/bot/index.js line 210 empties it before the length
check, so the event is discarded silently, with no reply and no
QueueItem. -/
theorem C10_whitespace_body_silent (msg : Msg)
    (download : Except String (Option Media)) (replyResult : Except String Unit)
    (h1 : msg.fromMe = false) (h2 : msg.from_ ≠ "status@broadcast")
    (h3 : jsEndsWith msg.from_ "@g.us" = false) (h4 : msg.hasMedia = false)
    (hws : ∀ c ∈ (jsOr msg.body "").data, c.isWhitespace = true) :
    messageCreate msg download replyResult
      = .ok ⟨[dbgLine msg], [], none, false⟩ := by
  have hz : (jsTrim (jsOr msg.body "")).length = 0 := by
    rw [jsTrim_of_whitespace _ hws]; rfl
  simp [messageCreate, h1, h2, h3, h4, hz]

/-- C10 witness: a body of one space and one tab, evaluated concretely. -/
theorem C10_whitespace_body_silent_witness :
    ((⟨"5496@c.us", false, false, some " \t"⟩ : Msg).fromMe = false) ∧
    ((⟨"5496@c.us", false, false, some " \t"⟩ : Msg).from_
      ≠ "status@broadcast") ∧
    (jsEndsWith (⟨"5496@c.us", false, false, some " \t"⟩ : Msg).from_
      "@g.us" = false) ∧
    ((⟨"5496@c.us", false, false, some " \t"⟩ : Msg).hasMedia = false) ∧
    (∀ c ∈ (jsOr (⟨"5496@c.us", false, false, some " \t"⟩ : Msg).body
        "").data, c.isWhitespace = true) ∧
    messageCreate ⟨"5496@c.us", false, false, some " \t"⟩ (.ok none) (.ok ())
      = .ok ⟨[dbgLine ⟨"5496@c.us", false, false, some " \t"⟩], [],
          none, false⟩ :=
  ⟨rfl, by decide, by decide, rfl, by decide,
   C10_whitespace_body_silent ⟨"5496@c.us", false, false, some " \t"⟩
     (.ok none) (.ok ()) rfl (by decide) (by decide) rfl (by decide)⟩
